import Mathlib

/-!
# Track preparation (`cmd/prepare.go`)

A shallow embedding of `prepareTrack` and of the payload type it decodes.
The collaborators that live outside `cmd/prepare.go` (configuration
loading and persisting, the API client, the JSON decoder) are the fields of
an environment `Env`; every call made to one of them is recorded, in order,
in the outcome of a run, next to the returned error.
-/

namespace Cmd

/-! ## Data model -/

/-- A Go `error` value as built by `errors.New` and by `fmt.Errorf` without
`%w` (which ends in `errors.New`): all that such a value carries is its
message. The errors of the collaborators are held the same way, by the
text of `Error()`. -/
structure GoError where
  msg : String
  deriving DecidableEq

/-- Go `errors.New(s)`. -/
def errorsNew (s : String) : GoError := ⟨s⟩

/-- Go `fmt.Errorf("unable to parse API response - %s", err)` (line 76): the
verb `%s` prints `err.Error()`. -/
def parseError (err : GoError) : GoError :=
  ⟨"unable to parse API response - " ++ err.msg⟩

/-- Go `fmt.Sprintf("%s/tracks/%s", apiCfg.BaseURL, id)` (line 60). -/
def trackURL (baseURL id : String) : String :=
  baseURL ++ "/tracks/" ++ id

/-- Go `http.StatusOK`. -/
def StatusOK : Int := 200

/-- The anonymous struct of the field `Track` of `prepareTrackPayload`. -/
structure PayloadTrack where
  ID : String
  Language : String
  TestPattern : String
  deriving DecidableEq

/-- The anonymous struct of the field `Error` of `prepareTrackPayload`
(the Go field `Type` is written `Kind`). -/
structure PayloadError where
  Kind : String
  Message : String
  deriving DecidableEq

/-- The type `prepareTrackPayload` (lines 100-110). -/
structure prepareTrackPayload where
  Track : PayloadTrack
  Error : PayloadError
  deriving DecidableEq

/-- The fields of `config.Track` that `prepareTrack` reads and writes. -/
structure Track where
  ID : String
  IgnorePatterns : List String
  deriving DecidableEq

/-- The field of `config.CLIConfig` that `prepareTrack` reads and writes:
the Go map `Tracks`, from track identifier to record. -/
structure CLIConfig where
  Tracks : String → Option Track

/-- Modelled from the spec: `config.NewTrack` is not part of
`cmd/prepare.go`. "Create a new Track Record with that identifier and an
empty ignore-pattern collection." -/
def NewTrack (id : String) : Track :=
  { ID := id, IgnorePatterns := [] }

/-- The fields of the user configuration that `prepareTrack` reads. -/
structure UserConfig where
  Token : String

/-- The fields of the API configuration that `prepareTrack` reads. -/
structure APIConfig where
  BaseURL : String

/-- The fields of `http.Response` that `prepareTrack` reads. -/
structure Response where
  StatusCode : Int
  Body : String

/-- The two methods of the API client that `prepareTrack` calls; `Req` is
the type of the requests it builds. -/
structure Client (Req : Type) where
  NewRequest : String → String → Except GoError Req
  Do : Req → Except GoError Response

/-- The collaborators of `prepareTrack`, each with the result it gives when
called. `Decode` is `json.NewDecoder(res.Body).Decode(payload)` on a
zero-valued payload; `Write` returns `none` for a nil error. -/
structure Env (Req : Type) where
  NewUserConfig : Except GoError UserConfig
  NewAPIConfig : Except GoError APIConfig
  NewClient : String → String → Except GoError (Client Req)
  Decode : String → Except GoError prepareTrackPayload
  NewCLIConfig : Except GoError CLIConfig
  Write : CLIConfig → Option GoError

/-- A call made by `prepareTrack` to one of its collaborators. -/
inductive Call where
  | NewUserConfig
  | NewAPIConfig
  | NewClient (token baseURL : String)
  | NewRequest (method url : String)
  | Do
  | Decode (body : String)
  | NewCLIConfig
  | Write (cliCfg : CLIConfig)
  | BodyClose

/-- What a run of `prepareTrack` does: the calls it made, in order, and the
error it returned (`none` for nil). -/
structure Outcome where
  calls : List Call
  err : Option GoError

/-! ## The operation -/

/-- Lines 88-95 of `prepareTrack`: look the record up under `id`, create it
when absent, append the test pattern when it is not empty, and store the
record under `id`. -/
def mergeTrack (cliCfg : CLIConfig) (id : String) (payload : prepareTrackPayload) :
    CLIConfig :=
  let t : Track :=
    match cliCfg.Tracks id with
    | some t => t
    | none => NewTrack id
  let t : Track :=
    if payload.Track.TestPattern ≠ "" then
      { t with IgnorePatterns := t.IgnorePatterns ++ [payload.Track.TestPattern] }
    else t
  { Tracks := fun k => if k = id then some t else cliCfg.Tracks k }

/-- The function `prepareTrack` (lines 46-98). The deferred
`res.Body.Close()` runs last on every path that follows a successful
`client.Do`. -/
def prepareTrack {Req : Type} (env : Env Req) (id : String) : Outcome :=
  match env.NewUserConfig with
  | .error err => ⟨[.NewUserConfig], some err⟩
  | .ok usrCfg =>
  match env.NewAPIConfig with
  | .error err => ⟨[.NewUserConfig, .NewAPIConfig], some err⟩
  | .ok apiCfg =>
  match env.NewClient usrCfg.Token apiCfg.BaseURL with
  | .error err =>
    ⟨[.NewUserConfig, .NewAPIConfig, .NewClient usrCfg.Token apiCfg.BaseURL], some err⟩
  | .ok client =>
  let url := trackURL apiCfg.BaseURL id
  match client.NewRequest "GET" url with
  | .error err =>
    ⟨[.NewUserConfig, .NewAPIConfig, .NewClient usrCfg.Token apiCfg.BaseURL,
      .NewRequest "GET" url], some err⟩
  | .ok req =>
  match client.Do req with
  | .error err =>
    ⟨[.NewUserConfig, .NewAPIConfig, .NewClient usrCfg.Token apiCfg.BaseURL,
      .NewRequest "GET" url, .Do], some err⟩
  | .ok res =>
  match env.Decode res.Body with
  | .error err =>
    ⟨[.NewUserConfig, .NewAPIConfig, .NewClient usrCfg.Token apiCfg.BaseURL,
      .NewRequest "GET" url, .Do, .Decode res.Body, .BodyClose],
     some (parseError err)⟩
  | .ok payload =>
  if res.StatusCode ≠ StatusOK then
    ⟨[.NewUserConfig, .NewAPIConfig, .NewClient usrCfg.Token apiCfg.BaseURL,
      .NewRequest "GET" url, .Do, .Decode res.Body, .BodyClose],
     some (errorsNew payload.Error.Message)⟩
  else
  match env.NewCLIConfig with
  | .error err =>
    ⟨[.NewUserConfig, .NewAPIConfig, .NewClient usrCfg.Token apiCfg.BaseURL,
      .NewRequest "GET" url, .Do, .Decode res.Body, .NewCLIConfig, .BodyClose],
     some err⟩
  | .ok cliCfg =>
  let cliCfg := mergeTrack cliCfg id payload
  ⟨[.NewUserConfig, .NewAPIConfig, .NewClient usrCfg.Token apiCfg.BaseURL,
    .NewRequest "GET" url, .Do, .Decode res.Body, .NewCLIConfig, .Write cliCfg,
    .BodyClose],
   env.Write cliCfg⟩

/-! ## Observations on a run -/

/-- The stores handed to `cliCfg.Write()`, in the order of the calls. -/
def writes : List Call → List CLIConfig
  | [] => []
  | .Write cliCfg :: cs => cliCfg :: writes cs
  | _ :: cs => writes cs

/-- The store was loaded: `config.NewCLIConfig()` is among the calls. -/
def loadsStore : List Call → Bool
  | [] => false
  | .NewCLIConfig :: _ => true
  | _ :: cs => loadsStore cs

/-- The run for `id` gets the response `res` from `client.Do`: the two
configurations load, the client and the request are built, and the
transport succeeds (lines 47-70). -/
def Receives {Req : Type} (env : Env Req) (id : String) (res : Response) : Prop :=
  ∃ (usrCfg : UserConfig) (apiCfg : APIConfig) (client : Client Req) (req : Req),
    env.NewUserConfig = .ok usrCfg ∧ env.NewAPIConfig = .ok apiCfg ∧
    env.NewClient usrCfg.Token apiCfg.BaseURL = .ok client ∧
    client.NewRequest "GET" (trackURL apiCfg.BaseURL id) = .ok req ∧
    client.Do req = .ok res

/-- The run for `id` fetches the descriptor carried by `payload`: a response
is received, its body decodes to `payload` and its status passes the check
of line 79. -/
def Fetches {Req : Type} (env : Env Req) (id : String) (payload : prepareTrackPayload) :
    Prop :=
  ∃ res : Response, Receives env id res ∧ env.Decode res.Body = .ok payload ∧
    res.StatusCode = StatusOK

/-- The ignore patterns the record under `id` has in `cliCfg`; the empty
list when there is no record. -/
def priorPatterns (cliCfg : CLIConfig) (id : String) : List String :=
  match cliCfg.Tracks id with
  | some t => t.IgnorePatterns
  | none => []

/-! ## Concrete collaborators -/

/-- A client whose transport answers every request with `res`. -/
def fixedClient (res : Response) : Client String :=
  { NewRequest := fun method url => .ok (method ++ " " ++ url)
    Do := fun _ => .ok res }

/-- An environment in which configuration and transport succeed, the
response is `res`, the decoder gives `decoded`, the store loads as `store`
and persisting succeeds. -/
def fixedEnv (res : Response) (decoded : Except GoError prepareTrackPayload)
    (store : Except GoError CLIConfig) : Env String :=
  { NewUserConfig := .ok ⟨"secret"⟩
    NewAPIConfig := .ok ⟨"https://api.example"⟩
    NewClient := fun _ _ => .ok (fixedClient res)
    Decode := fun _ => decoded
    NewCLIConfig := store
    Write := fun _ => none }

/-- A store without any record. -/
def emptyStore : CLIConfig := { Tracks := fun _ => none }

/-- A store with one record, for the track "go", holding one pattern. -/
def goStore : CLIConfig :=
  { Tracks := fun k => if k = "go" then some ⟨"go", ["_test.go"]⟩ else none }

/-- A payload for the track "go" with a test pattern and no error. -/
def goPayload : prepareTrackPayload :=
  { Track := ⟨"go", "Go", "_test.go"⟩, Error := ⟨"", ""⟩ }

/-- A payload whose track identifier is "golang", with a test pattern. -/
def golangPayload : prepareTrackPayload :=
  { Track := ⟨"golang", "Go", "_test.go"⟩, Error := ⟨"", ""⟩ }

/-- A payload for the track "go" without a test pattern. -/
def plainPayload : prepareTrackPayload :=
  { Track := ⟨"go", "Go", ""⟩, Error := ⟨"", ""⟩ }

/-- A payload carrying an error envelope and a zero-valued track. -/
def failedPayload : prepareTrackPayload :=
  { Track := ⟨"", "", ""⟩, Error := ⟨"not_found", "track not found"⟩ }

/-- A payload whose envelope message reads like a parse failure. -/
def mimicPayload : prepareTrackPayload :=
  { Track := ⟨"", "", ""⟩,
    Error := ⟨"error", "unable to parse API response - unexpected EOF"⟩ }

/-! ## The merge (lines 88-95) -/

theorem CLIConfig.ext_tracks {a b : CLIConfig} (h : ∀ k, a.Tracks k = b.Tracks k) : a = b := by
  cases a; cases b; congr; funext k; exact h k

theorem mergeTrack_other (cliCfg : CLIConfig) (id : String) (payload : prepareTrackPayload)
    (k : String) (hk : k ≠ id) :
    (mergeTrack cliCfg id payload).Tracks k = cliCfg.Tracks k := by
  simp [mergeTrack, hk]

theorem mergeTrack_self_some (cliCfg : CLIConfig) (id : String)
    (payload : prepareTrackPayload) (t : Track) (ht : cliCfg.Tracks id = some t) :
    (mergeTrack cliCfg id payload).Tracks id =
      some (if payload.Track.TestPattern ≠ "" then
        { t with IgnorePatterns := t.IgnorePatterns ++ [payload.Track.TestPattern] }
      else t) := by
  simp [mergeTrack, ht]

theorem mergeTrack_self_none (cliCfg : CLIConfig) (id : String)
    (payload : prepareTrackPayload) (ht : cliCfg.Tracks id = none) :
    (mergeTrack cliCfg id payload).Tracks id =
      some (if payload.Track.TestPattern ≠ "" then
        { ID := id, IgnorePatterns := [payload.Track.TestPattern] }
      else { ID := id, IgnorePatterns := [] }) := by
  simp [mergeTrack, ht, NewTrack]

theorem mergeTrack_self_patterns (cliCfg : CLIConfig) (id : String)
    (payload : prepareTrackPayload) :
    ∃ t, (mergeTrack cliCfg id payload).Tracks id = some t ∧
      t.IgnorePatterns = priorPatterns cliCfg id ++
        (if payload.Track.TestPattern ≠ "" then [payload.Track.TestPattern] else []) := by
  cases ht : cliCfg.Tracks id with
  | none =>
    refine ⟨_, mergeTrack_self_none cliCfg id payload ht, ?_⟩
    by_cases hp : payload.Track.TestPattern = "" <;> simp [priorPatterns, ht, hp]
  | some t =>
    refine ⟨_, mergeTrack_self_some cliCfg id payload t ht, ?_⟩
    by_cases hp : payload.Track.TestPattern = "" <;> simp [priorPatterns, ht, hp]

/-! ## The exits of a run -/

theorem run_decode_error {Req : Type} (env : Env Req) (id : String) (res : Response)
    (d : GoError) (hr : Receives env id res) (hd : env.Decode res.Body = .error d) :
    (prepareTrack env id).err = some (parseError d) ∧
      writes (prepareTrack env id).calls = [] ∧
      loadsStore (prepareTrack env id).calls = false := by
  obtain ⟨u, a, c, rq, hu, ha, hc, hrq, hdo⟩ := hr
  simp [prepareTrack, hu, ha, hc, hrq, hdo, hd, writes, loadsStore]

theorem run_status_error {Req : Type} (env : Env Req) (id : String) (res : Response)
    (payload : prepareTrackPayload) (hr : Receives env id res)
    (hd : env.Decode res.Body = .ok payload) (hs : res.StatusCode ≠ StatusOK) :
    (prepareTrack env id).err = some (errorsNew payload.Error.Message) ∧
      writes (prepareTrack env id).calls = [] ∧
      loadsStore (prepareTrack env id).calls = false := by
  obtain ⟨u, a, c, rq, hu, ha, hc, hrq, hdo⟩ := hr
  simp [prepareTrack, hu, ha, hc, hrq, hdo, hd, hs, writes, loadsStore]

theorem run_load_error {Req : Type} (env : Env Req) (id : String) (res : Response)
    (payload : prepareTrackPayload) (e : GoError) (hr : Receives env id res)
    (hd : env.Decode res.Body = .ok payload) (hs : res.StatusCode = StatusOK)
    (hl : env.NewCLIConfig = .error e) :
    (prepareTrack env id).err = some e ∧
      writes (prepareTrack env id).calls = [] ∧
      loadsStore (prepareTrack env id).calls = true := by
  obtain ⟨u, a, c, rq, hu, ha, hc, hrq, hdo⟩ := hr
  simp [prepareTrack, hu, ha, hc, hrq, hdo, hd, hs, hl, writes, loadsStore]

theorem run_merge {Req : Type} (env : Env Req) (id : String) (res : Response)
    (payload : prepareTrackPayload) (cliCfg : CLIConfig) (hr : Receives env id res)
    (hd : env.Decode res.Body = .ok payload) (hs : res.StatusCode = StatusOK)
    (hl : env.NewCLIConfig = .ok cliCfg) :
    (prepareTrack env id).err = env.Write (mergeTrack cliCfg id payload) ∧
      writes (prepareTrack env id).calls = [mergeTrack cliCfg id payload] ∧
      loadsStore (prepareTrack env id).calls = true ∧
      ∃ pre, (prepareTrack env id).calls =
          pre ++ [.Write (mergeTrack cliCfg id payload), .BodyClose] ∧
        writes pre = [] := by
  obtain ⟨u, a, c, rq, hu, ha, hc, hrq, hdo⟩ := hr
  refine ⟨?_, ?_, ?_, [.NewUserConfig, .NewAPIConfig, .NewClient u.Token a.BaseURL,
    .NewRequest "GET" (trackURL a.BaseURL id), .Do, .Decode res.Body, .NewCLIConfig], ?_, ?_⟩ <;>
  simp [prepareTrack, hu, ha, hc, hrq, hdo, hd, hs, hl, writes, loadsStore]

theorem run_fetches {Req : Type} (env : Env Req) (id : String)
    (payload : prepareTrackPayload) (cliCfg : CLIConfig) (hf : Fetches env id payload)
    (hl : env.NewCLIConfig = .ok cliCfg) :
    writes (prepareTrack env id).calls = [mergeTrack cliCfg id payload] ∧
      (prepareTrack env id).err = env.Write (mergeTrack cliCfg id payload) := by
  obtain ⟨res, hr, hd, hs⟩ := hf
  obtain ⟨h1, h2, -⟩ := run_merge env id res payload cliCfg hr hd hs hl
  exact ⟨h2, h1⟩

theorem fixedEnv_receives (res : Response) (decoded : Except GoError prepareTrackPayload)
    (store : Except GoError CLIConfig) (id : String) :
    Receives (fixedEnv res decoded store) id res :=
  ⟨⟨"secret"⟩, ⟨"https://api.example"⟩, fixedClient res,
    "GET" ++ " " ++ trackURL "https://api.example" id, rfl, rfl, rfl, rfl, rfl⟩

theorem fixedEnv_fetches (body : String) (payload : prepareTrackPayload)
    (store : Except GoError CLIConfig) (id : String) :
    Fetches (fixedEnv ⟨200, body⟩ (.ok payload) store) id payload :=
  ⟨⟨200, body⟩, fixedEnv_receives _ _ _ id, rfl, rfl⟩

theorem run_writes_cases {Req : Type} (env : Env Req) (id : String) :
    writes (prepareTrack env id).calls = [] ∨
      ∃ res payload cliCfg, Receives env id res ∧ env.Decode res.Body = .ok payload ∧
        res.StatusCode = StatusOK ∧ env.NewCLIConfig = .ok cliCfg := by
  cases hu : env.NewUserConfig with
  | error e => left; simp [prepareTrack, hu, writes]
  | ok u =>
  cases ha : env.NewAPIConfig with
  | error e => left; simp [prepareTrack, hu, ha, writes]
  | ok a =>
  cases hc : env.NewClient u.Token a.BaseURL with
  | error e => left; simp [prepareTrack, hu, ha, hc, writes]
  | ok c =>
  cases hrq : c.NewRequest "GET" (trackURL a.BaseURL id) with
  | error e => left; simp [prepareTrack, hu, ha, hc, hrq, writes]
  | ok rq =>
  cases hdo : c.Do rq with
  | error e => left; simp [prepareTrack, hu, ha, hc, hrq, hdo, writes]
  | ok res =>
  have hr : Receives env id res := ⟨u, a, c, rq, hu, ha, hc, hrq, hdo⟩
  cases hd : env.Decode res.Body with
  | error d => left; exact (run_decode_error env id res d hr hd).2.1
  | ok payload =>
  by_cases hs : res.StatusCode = StatusOK
  · cases hl : env.NewCLIConfig with
    | error e => left; exact (run_load_error env id res payload e hr hd hs hl).2.1
    | ok cliCfg => right; exact ⟨res, payload, cliCfg, hr, hd, hs, rfl⟩
  · left; exact (run_status_error env id res payload hr hd hs).2.1

/-! ## The claims -/

/-- C1. When the descriptor is fetched, the store loads and the test pattern
`p` is not empty, the record written under `id` holds the patterns the
record had before (none if it was new) followed by `p`: one pattern more,
whether or not `p` was already among them. Holds for every `id`, the
non-empty ones included. -/
theorem prepareTrack_appends_test_pattern {Req : Type} (env : Env Req) (id : String)
    (payload : prepareTrackPayload) (cliCfg : CLIConfig) (hf : Fetches env id payload)
    (hl : env.NewCLIConfig = .ok cliCfg) (hp : payload.Track.TestPattern ≠ "") :
    ∃ s t, writes (prepareTrack env id).calls = [s] ∧ s.Tracks id = some t ∧
      t.IgnorePatterns = priorPatterns cliCfg id ++ [payload.Track.TestPattern] ∧
      t.IgnorePatterns.length = (priorPatterns cliCfg id).length + 1 := by
  obtain ⟨t, ht, hpat⟩ := mergeTrack_self_patterns cliCfg id payload
  refine ⟨_, t, (run_fetches env id payload cliCfg hf hl).1, ht, ?_, ?_⟩
  · simpa [hp] using hpat
  · simp [hpat, hp]

theorem prepareTrack_appends_test_pattern_witness :
    Fetches (fixedEnv ⟨200, "\x7b\x7d"⟩ (.ok goPayload) (.ok goStore)) "go" goPayload ∧
      goPayload.Track.TestPattern ≠ "" ∧ priorPatterns goStore "go" = ["_test.go"] ∧
      ∃ s t, writes (prepareTrack (fixedEnv ⟨200, "\x7b\x7d"⟩ (.ok goPayload) (.ok goStore))
          "go").calls = [s] ∧ s.Tracks "go" = some t ∧
        t.IgnorePatterns = priorPatterns goStore "go" ++ [goPayload.Track.TestPattern] ∧
        t.IgnorePatterns.length = (priorPatterns goStore "go").length + 1 :=
  ⟨fixedEnv_fetches _ _ _ _, by decide, by decide,
    prepareTrack_appends_test_pattern _ "go" goPayload goStore (fixedEnv_fetches _ _ _ _) rfl
      (by decide)⟩

/-- C2. When the descriptor is fetched and the store loads, the store handed
to `Write` has, under every identifier other than `id`, exactly what the
loaded store has there, and every identifier that had a record still has
one. -/
theorem prepareTrack_keeps_other_tracks {Req : Type} (env : Env Req) (id : String)
    (payload : prepareTrackPayload) (cliCfg : CLIConfig) (hf : Fetches env id payload)
    (hl : env.NewCLIConfig = .ok cliCfg) :
    ∃ s, writes (prepareTrack env id).calls = [s] ∧
      (∀ k, k ≠ id → s.Tracks k = cliCfg.Tracks k) ∧
      (∀ k, (cliCfg.Tracks k).isSome → (s.Tracks k).isSome) := by
  refine ⟨_, (run_fetches env id payload cliCfg hf hl).1, ?_, ?_⟩
  · intro k hk
    exact mergeTrack_other cliCfg id payload k hk
  · intro k hsome
    by_cases hk : k = id
    · subst hk
      obtain ⟨t, ht, -⟩ := mergeTrack_self_patterns cliCfg k payload
      simp [ht]
    · rw [mergeTrack_other cliCfg id payload k hk]
      exact hsome

theorem prepareTrack_keeps_other_tracks_witness :
    Fetches (fixedEnv ⟨200, "\x7b\x7d"⟩ (.ok golangPayload) (.ok goStore)) "golang"
        golangPayload ∧
      ∃ s, writes (prepareTrack (fixedEnv ⟨200, "\x7b\x7d"⟩ (.ok golangPayload) (.ok goStore))
          "golang").calls = [s] ∧
        (∀ k, k ≠ "golang" → s.Tracks k = goStore.Tracks k) ∧
        (∀ k, (goStore.Tracks k).isSome → (s.Tracks k).isSome) :=
  ⟨fixedEnv_fetches _ _ _ _,
    prepareTrack_keeps_other_tracks _ "golang" golangPayload goStore
      (fixedEnv_fetches _ _ _ _) rfl⟩

/-- C6. When `id` has no record in the loaded store and the descriptor is
fetched, the store handed to `Write` has a record under `id` whose
identifier is `id` and whose patterns are `[p]` for a non-empty test pattern
`p` and none for an empty one (a new record starting without patterns). -/
theorem prepareTrack_creates_record {Req : Type} (env : Env Req) (id : String)
    (payload : prepareTrackPayload) (cliCfg : CLIConfig) (hf : Fetches env id payload)
    (hl : env.NewCLIConfig = .ok cliCfg) (hnew : cliCfg.Tracks id = none) :
    ∃ s t, writes (prepareTrack env id).calls = [s] ∧ s.Tracks id = some t ∧ t.ID = id ∧
      (payload.Track.TestPattern ≠ "" → t.IgnorePatterns = [payload.Track.TestPattern]) ∧
      (payload.Track.TestPattern = "" → t.IgnorePatterns = []) := by
  refine ⟨_, _, (run_fetches env id payload cliCfg hf hl).1,
    mergeTrack_self_none cliCfg id payload hnew, ?_, ?_, ?_⟩
  · by_cases hp : payload.Track.TestPattern = "" <;> simp [hp]
  · intro hp; simp [hp]
  · intro hp; simp [hp]

theorem prepareTrack_creates_record_witness :
    Fetches (fixedEnv ⟨200, "\x7b\x7d"⟩ (.ok goPayload) (.ok emptyStore)) "go" goPayload ∧
      emptyStore.Tracks "go" = none ∧ goPayload.Track.TestPattern = "_test.go" ∧
      ∃ s t, writes (prepareTrack (fixedEnv ⟨200, "\x7b\x7d"⟩ (.ok goPayload) (.ok emptyStore))
          "go").calls = [s] ∧ s.Tracks "go" = some t ∧ t.ID = "go" ∧
        (goPayload.Track.TestPattern ≠ "" →
          t.IgnorePatterns = [goPayload.Track.TestPattern]) ∧
        (goPayload.Track.TestPattern = "" → t.IgnorePatterns = []) :=
  ⟨fixedEnv_fetches _ _ _ _, rfl, rfl,
    prepareTrack_creates_record _ "go" goPayload emptyStore (fixedEnv_fetches _ _ _ _) rfl
      rfl⟩

/-- C10. When the fetched descriptor has an empty test pattern, the store
handed to `Write` still has a record under `id`, and when the loaded store
already had a record there, that record is unchanged and the store handed to
`Write` equals the loaded store. -/
theorem prepareTrack_empty_pattern {Req : Type} (env : Env Req) (id : String)
    (payload : prepareTrackPayload) (cliCfg : CLIConfig) (hf : Fetches env id payload)
    (hl : env.NewCLIConfig = .ok cliCfg) (hp : payload.Track.TestPattern = "") :
    ∃ s, writes (prepareTrack env id).calls = [s] ∧ (s.Tracks id).isSome ∧
      ∀ t, cliCfg.Tracks id = some t → s.Tracks id = some t ∧ s = cliCfg := by
  refine ⟨_, (run_fetches env id payload cliCfg hf hl).1, ?_, ?_⟩
  · obtain ⟨t, ht, -⟩ := mergeTrack_self_patterns cliCfg id payload
    simp [ht]
  · intro t ht
    have hself : (mergeTrack cliCfg id payload).Tracks id = some t := by
      rw [mergeTrack_self_some cliCfg id payload t ht]
      simp [hp]
    refine ⟨hself, CLIConfig.ext_tracks ?_⟩
    intro k
    by_cases hk : k = id
    · subst hk; rw [hself, ht]
    · exact mergeTrack_other cliCfg id payload k hk

theorem prepareTrack_empty_pattern_witness :
    Fetches (fixedEnv ⟨200, "\x7b\x7d"⟩ (.ok plainPayload) (.ok goStore)) "go" plainPayload ∧
      plainPayload.Track.TestPattern = "" ∧
      goStore.Tracks "go" = some ⟨"go", ["_test.go"]⟩ ∧
      ∃ s, writes (prepareTrack (fixedEnv ⟨200, "\x7b\x7d"⟩ (.ok plainPayload) (.ok goStore))
          "go").calls = [s] ∧ (s.Tracks "go").isSome ∧
        ∀ t, goStore.Tracks "go" = some t → s.Tracks "go" = some t ∧ s = goStore :=
  ⟨fixedEnv_fetches _ _ _ _, rfl, rfl,
    prepareTrack_empty_pattern _ "go" plainPayload goStore (fixedEnv_fetches _ _ _ _) rfl
      rfl⟩

/-- C7, as stated, fails: the request is for "go", the payload says its track
is "golang"; the store handed to `Write` has no record under "golang", and
the record under "go" is the one that got the pattern. -/
theorem prepareTrack_descriptor_id_unused :
    Fetches (fixedEnv ⟨200, "\x7b\x7d"⟩ (.ok golangPayload) (.ok emptyStore)) "go"
        golangPayload ∧
      golangPayload.Track.ID = "golang" ∧
      ∃ s, writes (prepareTrack (fixedEnv ⟨200, "\x7b\x7d"⟩ (.ok golangPayload) (.ok emptyStore))
          "go").calls = [s] ∧
        s.Tracks "golang" = none ∧ s.Tracks "go" = some ⟨"go", ["_test.go"]⟩ :=
  ⟨fixedEnv_fetches _ _ _ _, rfl, _, rfl, rfl, rfl⟩

/-- C7, amended. When the descriptor is fetched and the store loads, the
record that is looked up, created if absent, updated and written back is the
one under the requested identifier `id`: it holds the patterns it had before
followed by the test pattern when that is not empty. The payload's
`track.id` plays no part: the written store is the same for every value of
it, and when it differs from `id` the store keeps under `track.id` what
was loaded there. -/
theorem prepareTrack_keyed_by_requested_id {Req : Type} (env : Env Req) (id : String)
    (payload : prepareTrackPayload) (cliCfg : CLIConfig) (hf : Fetches env id payload)
    (hl : env.NewCLIConfig = .ok cliCfg) :
    ∃ s t, writes (prepareTrack env id).calls = [s] ∧ s.Tracks id = some t ∧
      t.IgnorePatterns = priorPatterns cliCfg id ++
        (if payload.Track.TestPattern ≠ "" then [payload.Track.TestPattern] else []) ∧
      (∀ tid, s = mergeTrack cliCfg id
        { payload with Track := { payload.Track with ID := tid } }) ∧
      (payload.Track.ID ≠ id →
        s.Tracks payload.Track.ID = cliCfg.Tracks payload.Track.ID) := by
  obtain ⟨t, ht, hpat⟩ := mergeTrack_self_patterns cliCfg id payload
  refine ⟨_, t, (run_fetches env id payload cliCfg hf hl).1, ht, hpat, ?_, ?_⟩
  · intro tid; rfl
  · intro hne
    exact mergeTrack_other cliCfg id payload _ hne

theorem prepareTrack_keyed_by_requested_id_witness :
    Fetches (fixedEnv ⟨200, "\x7b\x7d"⟩ (.ok golangPayload) (.ok goStore)) "go" golangPayload ∧
      golangPayload.Track.ID ≠ "go" ∧
      ∃ s t, writes (prepareTrack (fixedEnv ⟨200, "\x7b\x7d"⟩ (.ok golangPayload) (.ok goStore))
          "go").calls = [s] ∧ s.Tracks "go" = some t ∧
        t.IgnorePatterns = priorPatterns goStore "go" ++
          (if golangPayload.Track.TestPattern ≠ "" then [golangPayload.Track.TestPattern]
            else []) ∧
        (∀ tid, s = mergeTrack goStore "go"
          { golangPayload with Track := { golangPayload.Track with ID := tid } }) ∧
        (golangPayload.Track.ID ≠ "go" →
          s.Tracks golangPayload.Track.ID = goStore.Tracks golangPayload.Track.ID) :=
  ⟨fixedEnv_fetches _ _ _ _, by decide,
    prepareTrack_keyed_by_requested_id _ "go" golangPayload goStore
      (fixedEnv_fetches _ _ _ _) rfl⟩

/-- C8, as stated, fails: merging the payload for "go" twice into a store
leaves two copies of the test pattern more, merging it once leaves one. -/
theorem mergeTrack_twice_differs :
    ((mergeTrack (mergeTrack goStore "go" goPayload) "go" goPayload).Tracks "go" =
        some ⟨"go", ["_test.go", "_test.go", "_test.go"]⟩ ∧
      (mergeTrack goStore "go" goPayload).Tracks "go" =
        some ⟨"go", ["_test.go", "_test.go"]⟩) ∧
      mergeTrack (mergeTrack goStore "go" goPayload) "go" goPayload ≠
        mergeTrack goStore "go" goPayload := by
  refine ⟨⟨rfl, rfl⟩, fun h => ?_⟩
  have h2 := congrArg (fun c : CLIConfig => c.Tracks "go") h
  revert h2
  decide

/-- C8, amended. Merging the same descriptor a second time gives the store of
the first merge exactly when the descriptor's test pattern is empty; with a
non-empty test pattern the second merge appends the pattern once more. -/
theorem mergeTrack_twice_iff (cliCfg : CLIConfig) (id : String)
    (payload : prepareTrackPayload) :
    (mergeTrack (mergeTrack cliCfg id payload) id payload = mergeTrack cliCfg id payload ↔
        payload.Track.TestPattern = "") ∧
      priorPatterns (mergeTrack (mergeTrack cliCfg id payload) id payload) id =
        priorPatterns (mergeTrack cliCfg id payload) id ++
          (if payload.Track.TestPattern ≠ "" then [payload.Track.TestPattern] else []) := by
  obtain ⟨t1, ht1, -⟩ := mergeTrack_self_patterns cliCfg id payload
  obtain ⟨t2, ht2, hpat2⟩ := mergeTrack_self_patterns (mergeTrack cliCfg id payload) id payload
  have hlen : priorPatterns (mergeTrack (mergeTrack cliCfg id payload) id payload) id =
      priorPatterns (mergeTrack cliCfg id payload) id ++
        (if payload.Track.TestPattern ≠ "" then [payload.Track.TestPattern] else []) := by
    rw [← hpat2]; simp [priorPatterns, ht2]
  refine ⟨⟨fun h => ?_, fun hp => ?_⟩, hlen⟩
  · by_contra hp
    rw [h] at hlen
    have := congrArg List.length hlen
    simp [hp] at this
  · apply CLIConfig.ext_tracks
    intro k
    by_cases hk : k = id
    · subst hk
      rw [mergeTrack_self_some (mergeTrack cliCfg k payload) k payload t1 ht1, ht1]
      simp [hp]
    · rw [mergeTrack_other _ id payload k hk]

/-- C3, as stated, fails: a response with status 201, inside the 2xx range,
whose body decodes, ends the run with the error built from the envelope
message; the store is neither loaded nor written. -/
theorem prepareTrack_rejects_201 :
    Receives (fixedEnv ⟨201, "\x7b\x7d"⟩ (.ok goPayload) (.ok goStore)) "go" ⟨201, "\x7b\x7d"⟩ ∧
      (fixedEnv ⟨201, "\x7b\x7d"⟩ (.ok goPayload) (.ok goStore)).Decode "\x7b\x7d" = .ok goPayload ∧
      ((200 : Int) ≤ 201 ∧ (201 : Int) < 300) ∧
      (prepareTrack (fixedEnv ⟨201, "\x7b\x7d"⟩ (.ok goPayload) (.ok goStore)) "go").err =
        some (errorsNew goPayload.Error.Message) ∧
      loadsStore (prepareTrack (fixedEnv ⟨201, "\x7b\x7d"⟩ (.ok goPayload) (.ok goStore))
        "go").calls = false ∧
      writes (prepareTrack (fixedEnv ⟨201, "\x7b\x7d"⟩ (.ok goPayload) (.ok goStore))
        "go").calls = [] :=
  ⟨fixedEnv_receives _ _ _ _, rfl, by decide, rfl, rfl, rfl⟩

/-- C3, amended. For a response whose body decodes, the run ends with the
application-level failure (the error built from the envelope message, the
store never loaded) exactly when the status code is not 200: every other
status, 201 and 204 included, fails, and status 200 goes on to load the
store and, when it loads, to hand the merged store to `Write`. -/
theorem prepareTrack_fails_iff_not_200 {Req : Type} (env : Env Req) (id : String)
    (res : Response) (payload : prepareTrackPayload) (hr : Receives env id res)
    (hd : env.Decode res.Body = .ok payload) :
    (((prepareTrack env id).err = some (errorsNew payload.Error.Message) ∧
        loadsStore (prepareTrack env id).calls = false) ↔ res.StatusCode ≠ 200) ∧
      (res.StatusCode = 200 → loadsStore (prepareTrack env id).calls = true ∧
        ∀ cliCfg, env.NewCLIConfig = .ok cliCfg →
          writes (prepareTrack env id).calls = [mergeTrack cliCfg id payload] ∧
          (prepareTrack env id).err = env.Write (mergeTrack cliCfg id payload)) := by
  have hload : res.StatusCode = 200 → loadsStore (prepareTrack env id).calls = true := by
    intro hs
    cases hl : env.NewCLIConfig with
    | error e => exact (run_load_error env id res payload e hr hd hs hl).2.2
    | ok cliCfg => exact (run_merge env id res payload cliCfg hr hd hs hl).2.2.1
  refine ⟨⟨fun h hs => ?_, fun hs => ?_⟩, fun hs => ⟨hload hs, fun cliCfg hl => ?_⟩⟩
  · rw [hload hs] at h
    exact Bool.noConfusion h.2
  · obtain ⟨h1, -, h3⟩ := run_status_error env id res payload hr hd hs
    exact ⟨h1, h3⟩
  · obtain ⟨h1, h2, -⟩ := run_merge env id res payload cliCfg hr hd hs hl
    exact ⟨h2, h1⟩

theorem prepareTrack_fails_iff_not_200_witness :
    Receives (fixedEnv ⟨204, "\x7b\x7d"⟩ (.ok goPayload) (.ok goStore)) "go" ⟨204, "\x7b\x7d"⟩ ∧
      (prepareTrack (fixedEnv ⟨204, "\x7b\x7d"⟩ (.ok goPayload) (.ok goStore)) "go").err =
        some (errorsNew goPayload.Error.Message) ∧
      loadsStore (prepareTrack (fixedEnv ⟨204, "\x7b\x7d"⟩ (.ok goPayload) (.ok goStore))
        "go").calls = false :=
  ⟨fixedEnv_receives _ _ _ _,
    (prepareTrack_fails_iff_not_200 (fixedEnv ⟨204, "\x7b\x7d"⟩ (.ok goPayload) (.ok goStore)) "go"
      ⟨204, "\x7b\x7d"⟩ goPayload (fixedEnv_receives _ _ _ _) rfl).1.2 (by decide)⟩

/-- C4. For a response whose status is not 200 (every non-success status is
such a status) and whose body decodes to a payload with envelope message
`m`, the returned error is `errors.New(m)`: its message is `m` itself, and
any other such response with the same envelope message, whatever its status
and track, gives the same error. -/
theorem prepareTrack_error_is_envelope_message {Req : Type} (env : Env Req) (id : String)
    (res : Response) (payload : prepareTrackPayload) (hr : Receives env id res)
    (hd : env.Decode res.Body = .ok payload) (hs : res.StatusCode ≠ 200) :
    (∃ e, (prepareTrack env id).err = some e ∧ e.msg = payload.Error.Message) ∧
      ∀ (env2 : Env Req) (id2 : String) (res2 : Response) (payload2 : prepareTrackPayload),
        Receives env2 id2 res2 → env2.Decode res2.Body = .ok payload2 →
        res2.StatusCode ≠ 200 → payload2.Error.Message = payload.Error.Message →
        (prepareTrack env2 id2).err = (prepareTrack env id).err := by
  have h1 := (run_status_error env id res payload hr hd hs).1
  refine ⟨⟨_, h1, rfl⟩, ?_⟩
  intro env2 id2 res2 payload2 hr2 hd2 hs2 hm
  rw [h1, (run_status_error env2 id2 res2 payload2 hr2 hd2 hs2).1, hm]

theorem prepareTrack_error_is_envelope_message_witness :
    Receives (fixedEnv ⟨404, "\x7b\x7d"⟩ (.ok failedPayload) (.ok goStore)) "cobol" ⟨404, "\x7b\x7d"⟩ ∧
      ∃ e, (prepareTrack (fixedEnv ⟨404, "\x7b\x7d"⟩ (.ok failedPayload) (.ok goStore))
          "cobol").err = some e ∧ e.msg = "track not found" :=
  ⟨fixedEnv_receives _ _ _ _,
    (prepareTrack_error_is_envelope_message
      (fixedEnv ⟨404, "\x7b\x7d"⟩ (.ok failedPayload) (.ok goStore)) "cobol" ⟨404, "\x7b\x7d"⟩
      failedPayload (fixedEnv_receives _ _ _ _) rfl (by decide)).1⟩

/-- C9, as stated, fails: a body that does not decode (detail "unexpected
EOF") and a response with status 500 whose envelope message is "unable to
parse API response - unexpected EOF" end the run with equal errors. -/
theorem prepareTrack_parse_error_not_distinct :
    (prepareTrack (fixedEnv ⟨200, "\x7b"⟩ (.error ⟨"unexpected EOF"⟩) (.ok goStore)) "go").err =
        some (parseError ⟨"unexpected EOF"⟩) ∧
      (prepareTrack (fixedEnv ⟨500, "\x7b\x7d"⟩ (.ok mimicPayload) (.ok goStore)) "go").err =
        some (errorsNew mimicPayload.Error.Message) ∧
      errorsNew mimicPayload.Error.Message = parseError ⟨"unexpected EOF"⟩ :=
  ⟨rfl, rfl, by decide⟩

/-- C9, amended. For every response whose body does not decode, whatever its
status code, the run ends with the error whose message is "unable to parse
API response - " followed by the decoder's detail, and the store is neither
loaded nor written. An application-level failure with envelope message `m`
returns an error equal to this one exactly when `m` is that whole message;
for every other `m` the two errors differ. -/
theorem prepareTrack_parse_error {Req : Type} (env : Env Req) (id : String)
    (res : Response) (d : GoError) (hr : Receives env id res)
    (hd : env.Decode res.Body = .error d) :
    (∃ e, (prepareTrack env id).err = some e ∧
        e.msg = "unable to parse API response - " ++ d.msg) ∧
      loadsStore (prepareTrack env id).calls = false ∧
      writes (prepareTrack env id).calls = [] ∧
      ∀ m : String, (some (errorsNew m) = (prepareTrack env id).err ↔
        m = "unable to parse API response - " ++ d.msg) := by
  obtain ⟨h1, h2, h3⟩ := run_decode_error env id res d hr hd
  refine ⟨⟨_, h1, rfl⟩, h3, h2, fun m => ?_⟩
  rw [h1]
  constructor
  · intro h
    have := congrArg GoError.msg (Option.some.inj h)
    simpa [errorsNew, parseError] using this
  · intro h
    simp [errorsNew, parseError, h]

theorem prepareTrack_parse_error_witness :
    Receives (fixedEnv ⟨503, "<html>"⟩ (.error ⟨"invalid character"⟩) (.ok goStore)) "go"
        ⟨503, "<html>"⟩ ∧
      ∃ e, (prepareTrack (fixedEnv ⟨503, "<html>"⟩ (.error ⟨"invalid character"⟩)
          (.ok goStore)) "go").err = some e ∧
        e.msg = "unable to parse API response - " ++ "invalid character" :=
  ⟨fixedEnv_receives _ _ _ _,
    (prepareTrack_parse_error
      (fixedEnv ⟨503, "<html>"⟩ (.error ⟨"invalid character"⟩) (.ok goStore)) "go"
      ⟨503, "<html>"⟩ ⟨"invalid character"⟩ (fixedEnv_receives _ _ _ _) rfl).1⟩

/-- C5, as stated, fails at the decode step: when the decoder returns the
error "unexpected EOF", the run does not return that error but a new one,
whose message is "unable to parse API response - unexpected EOF"; `Write`
is not called. -/
theorem prepareTrack_decode_error_rewrapped :
    Receives (fixedEnv ⟨200, "\x7b"⟩ (.error ⟨"unexpected EOF"⟩) (.ok goStore)) "go"
        ⟨200, "\x7b"⟩ ∧
      (fixedEnv ⟨200, "\x7b"⟩ (.error ⟨"unexpected EOF"⟩) (.ok goStore)).Decode "\x7b" =
        .error ⟨"unexpected EOF"⟩ ∧
      (prepareTrack (fixedEnv ⟨200, "\x7b"⟩ (.error ⟨"unexpected EOF"⟩) (.ok goStore))
        "go").err ≠ some ⟨"unexpected EOF"⟩ ∧
      (prepareTrack (fixedEnv ⟨200, "\x7b"⟩ (.error ⟨"unexpected EOF"⟩) (.ok goStore))
        "go").err = some ⟨"unable to parse API response - unexpected EOF"⟩ ∧
      writes (prepareTrack (fixedEnv ⟨200, "\x7b"⟩ (.error ⟨"unexpected EOF"⟩) (.ok goStore))
        "go").calls = [] :=
  ⟨fixedEnv_receives _ _ _ _, rfl, by decide, by decide, rfl⟩

/-- C5, amended. In every run `Write` is called at most once. When it is
called, the response was received, decoded and had status 200, the store
loaded, the store handed to `Write` is the merged one, the returned error is
the one of `Write`, and nothing but the deferred close of the response body
follows the call. When an earlier step fails, `Write` is never called and
the run returns: the step's own error, unchanged, for the user or API
configuration, the client, the request, the transport and the store load; a
new error, never the decoder's own, whose message is "unable to parse API
response - " followed by the decoder's message, for a body that does not
decode; a new error whose message is the envelope message, for a status
other than 200. -/
theorem prepareTrack_persists_last {Req : Type} (env : Env Req) (id : String) :
    (writes (prepareTrack env id).calls).length ≤ 1 ∧
    (∀ s, s ∈ writes (prepareTrack env id).calls →
      ∃ res payload cliCfg pre, Receives env id res ∧ env.Decode res.Body = .ok payload ∧
        res.StatusCode = 200 ∧ env.NewCLIConfig = .ok cliCfg ∧
        s = mergeTrack cliCfg id payload ∧
        (prepareTrack env id).calls = pre ++ [.Write s, .BodyClose] ∧ writes pre = [] ∧
        (prepareTrack env id).err = env.Write s) ∧
    (∀ e, env.NewUserConfig = .error e →
      (prepareTrack env id).err = some e ∧ writes (prepareTrack env id).calls = []) ∧
    (∀ u e, env.NewUserConfig = .ok u → env.NewAPIConfig = .error e →
      (prepareTrack env id).err = some e ∧ writes (prepareTrack env id).calls = []) ∧
    (∀ u a e, env.NewUserConfig = .ok u → env.NewAPIConfig = .ok a →
      env.NewClient u.Token a.BaseURL = .error e →
      (prepareTrack env id).err = some e ∧ writes (prepareTrack env id).calls = []) ∧
    (∀ u a c e, env.NewUserConfig = .ok u → env.NewAPIConfig = .ok a →
      env.NewClient u.Token a.BaseURL = .ok c →
      c.NewRequest "GET" (trackURL a.BaseURL id) = .error e →
      (prepareTrack env id).err = some e ∧ writes (prepareTrack env id).calls = []) ∧
    (∀ u a c rq e, env.NewUserConfig = .ok u → env.NewAPIConfig = .ok a →
      env.NewClient u.Token a.BaseURL = .ok c →
      c.NewRequest "GET" (trackURL a.BaseURL id) = .ok rq → c.Do rq = .error e →
      (prepareTrack env id).err = some e ∧ writes (prepareTrack env id).calls = []) ∧
    (∀ res d, Receives env id res → env.Decode res.Body = .error d →
      (∃ e, (prepareTrack env id).err = some e ∧
          e.msg = "unable to parse API response - " ++ d.msg ∧ e ≠ d) ∧
        writes (prepareTrack env id).calls = []) ∧
    (∀ res payload, Receives env id res → env.Decode res.Body = .ok payload →
      res.StatusCode ≠ 200 →
      (∃ e, (prepareTrack env id).err = some e ∧ e.msg = payload.Error.Message) ∧
        writes (prepareTrack env id).calls = []) ∧
    (∀ res payload e, Receives env id res → env.Decode res.Body = .ok payload →
      res.StatusCode = 200 → env.NewCLIConfig = .error e →
      (prepareTrack env id).err = some e ∧ writes (prepareTrack env id).calls = []) := by
  refine ⟨?_, ?_, ?_, ?_, ?_, ?_, ?_, ?_, ?_, ?_⟩
  · rcases run_writes_cases env id with h | ⟨res, payload, cliCfg, hr, hd, hs, hl⟩
    · simp [h]
    · simp [(run_merge env id res payload cliCfg hr hd hs hl).2.1]
  · intro s hmem
    rcases run_writes_cases env id with h | ⟨res, payload, cliCfg, hr, hd, hs, hl⟩
    · simp [h] at hmem
    · obtain ⟨h1, h2, -, pre, h4, h5⟩ := run_merge env id res payload cliCfg hr hd hs hl
      rw [h2] at hmem
      have hs2 : s = mergeTrack cliCfg id payload := by simpa using hmem
      subst hs2
      exact ⟨res, payload, cliCfg, pre, hr, hd, hs, hl, rfl, h4, h5, h1⟩
  · intro e hu
    simp [prepareTrack, hu, writes]
  · intro u e hu ha
    simp [prepareTrack, hu, ha, writes]
  · intro u a e hu ha hc
    simp [prepareTrack, hu, ha, hc, writes]
  · intro u a c e hu ha hc hrq
    simp [prepareTrack, hu, ha, hc, hrq, writes]
  · intro u a c rq e hu ha hc hrq hdo
    simp [prepareTrack, hu, ha, hc, hrq, hdo, writes]
  · intro res d hr hd
    refine ⟨⟨_, (run_decode_error env id res d hr hd).1, rfl, fun h => ?_⟩,
      (run_decode_error env id res d hr hd).2.1⟩
    have hlen := congrArg (fun e : GoError => e.msg.length) h
    simp [parseError] at hlen
    exact absurd hlen (by decide)
  · intro res payload hr hd hs
    exact ⟨⟨_, (run_status_error env id res payload hr hd hs).1, rfl⟩,
      (run_status_error env id res payload hr hd hs).2.1⟩
  · intro res payload e hr hd hs hl
    exact ⟨(run_load_error env id res payload e hr hd hs hl).1,
      (run_load_error env id res payload e hr hd hs hl).2.1⟩

theorem prepareTrack_persists_last_witness :
    (fixedEnv ⟨200, "\x7b\x7d"⟩ (.ok goPayload) (.error ⟨"config unreadable"⟩)).NewCLIConfig =
        .error ⟨"config unreadable"⟩ ∧
      (prepareTrack (fixedEnv ⟨200, "\x7b\x7d"⟩ (.ok goPayload)
        (.error ⟨"config unreadable"⟩)) "go").err = some ⟨"config unreadable"⟩ ∧
      writes (prepareTrack (fixedEnv ⟨200, "\x7b\x7d"⟩ (.ok goPayload)
        (.error ⟨"config unreadable"⟩)) "go").calls = [] :=
  ⟨rfl,
    (prepareTrack_persists_last
      (fixedEnv ⟨200, "\x7b\x7d"⟩ (.ok goPayload) (.error ⟨"config unreadable"⟩))
      "go").2.2.2.2.2.2.2.2.2 ⟨200, "\x7b\x7d"⟩ goPayload ⟨"config unreadable"⟩
      (fixedEnv_receives _ _ _ _) rfl rfl rfl⟩

end Cmd
